import Mathlib

/-!
Shallow embedding of `main.go` from ipv6-ddns-cloudflare: an IPv6
dynamic-DNS updater that polls a network interface for its public IPv6
address, debounces changes through a stability timer, and pushes stable
addresses to a CloudFlare DNS record.

File I/O, YAML parsing, HTTP transport and the wall clock are modelled as
explicit inputs (parsed config values, request/response outcomes, and
events); everything that the Go code computes from those inputs is
translated directly.
-/

namespace Ddns

/-! ## Configuration (`Config`, `CloudFlareConfig`, `loadConfig`, `validateConfig`) -/

/-- Mirrors `CloudFlareConfig` in main.go. Go `int` fields are `Int`. -/
structure CloudFlareConfig where
  apiToken : String
  zoneID : String
  recordName : String
  ttl : Int
  proxied : Bool
deriving Repr, DecidableEq

/-- Mirrors `Config` in main.go. -/
structure Config where
  interface : String
  pollInterval : Int
  stabilityDelay : Int
  cloudflare : CloudFlareConfig
deriving Repr, DecidableEq

/-- The defaults section of `loadConfig` (main.go:145-156).  Reading and
YAML-unmarshalling the file are modelled as the already-parsed `Config`
argument; an absent field unmarshals to the Go zero value `0`. -/
def loadConfig (parsed : Config) : Config :=
  let c := parsed
  let c := if c.pollInterval = 0 then { c with pollInterval := 30 } else c
  let c := if c.stabilityDelay = 0 then { c with stabilityDelay := 5 } else c
  let c := if c.cloudflare.ttl = 0 then
    { c with cloudflare := { c.cloudflare with ttl := 1 } } else c
  c

/-- Mirrors `validateConfig` (main.go:159-173): `.error msg` models the
returned `error`, `.ok ()` models `nil`. -/
def validateConfig (config : Config) : Except String Unit :=
  if config.interface = "" then .error "interface is required"
  else if config.cloudflare.apiToken = "" then .error "cloudflare.api_token is required"
  else if config.cloudflare.zoneID = "" then .error "cloudflare.zone_id is required"
  else if config.cloudflare.recordName = "" then .error "cloudflare.record_name is required"
  else .ok ()

/-! ## Address prober (`getPublicIPv6`)

A Go `net.IP` is a byte slice of length 4 or 16; we model it as
`List Nat` of byte values.  The classification helpers below are the
`net` package functions the loop in `getPublicIPv6` calls, translated
from the Go standard library.  Byte indexing `ip[i]` is modelled with
`List.getD`; the Go code would panic on an `ip` shorter than the index,
which cannot happen for addresses returned by the kernel (length 4 or
16), and the theorems restrict to those lengths. -/

/-- `v4InV6Prefix` from the Go `net` package: ten zero bytes then `0xff 0xff`. -/
def v4MappedPfx : List Nat := List.replicate 10 0 ++ [0xff, 0xff]

/-- Byte indexing `ip[0]` (0 for the impossible empty slice, where Go
would panic). -/
def byte0 : List Nat → Nat
  | [] => 0
  | b :: _ => b

/-- Byte indexing `ip[1]`. -/
def byte1 : List Nat → Nat
  | [] => 0
  | [_] => 0
  | _ :: b :: _ => b

/-- `net.IP.To4`: a 4-byte address is returned as is; a 16-byte
IPv4-mapped address (`::ffff:a.b.c.d`) yields its last 4 bytes;
anything else gives `none` (Go `nil`). -/
def to4 (ip : List Nat) : Option (List Nat) :=
  if ip.length = 4 then some ip
  else if ip.length = 16 ∧ ip.take 12 = v4MappedPfx then some (ip.drop 12)
  else none

/-- `net.IP.Equal`: equal lengths compare bytewise; a 4-byte and a
16-byte address are equal when the long one is the v4-mapped form of
the short one. -/
def ipEqual (a b : List Nat) : Bool :=
  if a.length = b.length then a = b
  else if a.length = 4 ∧ b.length = 16 then b.take 12 = v4MappedPfx ∧ a = b.drop 12
  else if a.length = 16 ∧ b.length = 4 then a.take 12 = v4MappedPfx ∧ b = a.drop 12
  else false

/-- `net.IPv4zero` (`0.0.0.0`). -/
def ipv4Zero : List Nat := [0, 0, 0, 0]

/-- `net.IPv4bcast` (`255.255.255.255`), stored v4-mapped in Go. -/
def ipv4Bcast : List Nat := v4MappedPfx ++ [255, 255, 255, 255]

/-- `net.IPv6unspecified` (`::`). -/
def ipv6Unspecified : List Nat := List.replicate 16 0

/-- `net.IPv6loopback` (`::1`). -/
def ipv6Loopback : List Nat := List.replicate 15 0 ++ [1]

/-- `net.IP.IsUnspecified`. -/
def isUnspecified (ip : List Nat) : Bool :=
  ipEqual ip ipv4Zero || ipEqual ip ipv6Unspecified

/-- `net.IP.IsLoopback`. -/
def isLoopback (ip : List Nat) : Bool :=
  match to4 ip with
  | some ip4 => byte0 ip4 = 127
  | none => ip = ipv6Loopback

/-- `net.IP.IsMulticast` (`ip[0]&0xf0 == 0xe0` for IPv4, `ip[0] == 0xff`
for a 16-byte address). -/
def isMulticast (ip : List Nat) : Bool :=
  match to4 ip with
  | some ip4 => byte0 ip4 % 256 / 16 = 0xe
  | none => ip.length = 16 ∧ byte0 ip = 0xff

/-- `net.IP.IsLinkLocalUnicast` (`169.254/16` for IPv4; for a 16-byte
address `ip[0] == 0xfe && ip[1]&0xc0 == 0x80`, i.e. `fe80::/10`). -/
def isLinkLocalUnicast (ip : List Nat) : Bool :=
  match to4 ip with
  | some ip4 => byte0 ip4 = 169 ∧ byte1 ip4 = 254
  | none => ip.length = 16 ∧ byte0 ip = 0xfe ∧ byte1 ip % 256 / 64 = 2

/-- `net.IP.IsGlobalUnicast`. -/
def isGlobalUnicast (ip : List Nat) : Bool :=
  (ip.length = 4 || ip.length = 16) &&
    !(ipEqual ip ipv4Bcast) &&
    !(isUnspecified ip) &&
    !(isLoopback ip) &&
    !(isMulticast ip) &&
    !(isLinkLocalUnicast ip)

/-- Errors `getPublicIPv6` can report. `interfaceNotFound` is the
`net.InterfaceByName` failure, `addrsFailed` the `iface.Addrs()` failure,
`noQualifyingAddress` the fallthrough at main.go:220. -/
inductive ProbeError where
  | interfaceNotFound
  | addrsFailed
  | noQualifyingAddress
deriving Repr, DecidableEq

/-- One entry of `iface.Addrs()`: `none` models an entry that is not a
`*net.IPNet` (the type assertion at main.go:187 fails and the entry is
skipped); `some ip` models `ipNet.IP`. -/
abbrev IfaceAddr := Option (List Nat)

/-- The selection loop of `getPublicIPv6` (main.go:186-218), one filter
per Go `continue`. -/
def selectIPv6 : List IfaceAddr → Option (List Nat)
  | [] => none
  | none :: rest => selectIPv6 rest
  | some ip :: rest =>
    if (to4 ip).isSome then selectIPv6 rest
    else if isLinkLocalUnicast ip then selectIPv6 rest
    else if isLoopback ip then selectIPv6 rest
    else if byte0 ip = 0xfc ∨ byte0 ip = 0xfd then selectIPv6 rest
    else if isGlobalUnicast ip then some ip
    else selectIPv6 rest

/-- The interface lookup feeding `getPublicIPv6`: `.error ...` for the two
system-call failures, `.ok addrs` for a found interface with its bound
addresses. -/
abbrev IfaceLookup := Except ProbeError (List IfaceAddr)

/-- `getPublicIPv6` (main.go:175-221).  The two system calls
(`net.InterfaceByName`, `iface.Addrs()`) are modelled by the `IfaceLookup`
argument; the returned address stands for `ip.String()`. -/
def getPublicIPv6 (lookup : IfaceLookup) : Except ProbeError (List Nat) :=
  match lookup with
  | .error e => .error e
  | .ok addrs =>
    match selectIPv6 addrs with
    | some ip => .ok ip
    | none => .error .noQualifyingAddress

/-- Restatement of the spec's prober contract (section 4.1 / section 8),
for the refinement theorem: a qualifying address is simultaneously IPv6,
not link-local, not loopback, not unique-local (first octet `0xfc` or
`0xfd`), and classified global unicast. -/
def qualifiesSpec (ip : List Nat) : Bool :=
  !(to4 ip).isSome && !(isLinkLocalUnicast ip) && !(isLoopback ip) &&
    !(byte0 ip = 0xfc ∨ byte0 ip = 0xfd) && isGlobalUnicast ip

/-! ## DNS record client (`DNSRecord`, `fetchRecordID`, `updateDNS`)

HTTP transport is modelled by an outcome argument describing what the
network and the provider did; everything the Go code does with the
response is translated. -/

/-- Mirrors `CFError` in main.go. -/
structure CFError where
  code : Int
  message : String
deriving Repr, DecidableEq

/-- Mirrors `DNSRecord` in main.go. -/
structure DNSRecord where
  id : String
  rtype : String
  name : String
  content : String
  ttl : Int
  proxied : Bool
deriving Repr, DecidableEq

/-- The error kinds the client reports upward, matching the `fmt.Errorf`
sites: `transportError` for `httpClient.Do` / body-read failures,
`parseError` for `json.Unmarshal` failures, `apiError` for a
`success=false` provider response (carrying its error list). -/
inductive DdnsError where
  | transportError
  | parseError
  | apiError (errs : List CFError)
deriving Repr, DecidableEq

/-- What the network and provider did for one HTTP exchange: the
transport failed, the body did not parse, the provider answered
`success=false` with errors, or it answered `success=true` with a result. -/
inductive HttpOutcome (α : Type) where
  | transportError
  | parseError
  | apiFailure (errs : List CFError)
  | success (result : α)
deriving Repr, DecidableEq

/-- Mirrors `DDNSService` in main.go.  `timerArmed` models "the timer in
the `stabilityTimer` field is scheduled and has neither fired nor been
stopped"; `armedCount` is a ghost count of all armed timers in the
process, used to state that at most one is ever active (faithful because
`startStabilityTimer` stops the previous timer before overwriting the
field, so no armed timer is ever leaked). -/
structure DDNSService where
  config : Config
  lastKnownIP : String
  pendingIP : String
  timerArmed : Bool
  armedCount : Nat
  recordID : String
deriving Repr, DecidableEq

/-- The freshly constructed service of main.go:94-99: zero-valued state
fields around the validated config. -/
def initService (config : Config) : DDNSService :=
  { config := config, lastKnownIP := "", pendingIP := "", timerArmed := false,
    armedCount := 0, recordID := "" }

/-- `fetchRecordID` (main.go:296-344).  The GET exchange is the
`HttpOutcome` argument; the result field of the response is the record
list.  Zero matches is `.ok` with the service unchanged; otherwise the
first match seeds `recordID` and `lastKnownIP`. -/
def fetchRecordID (s : DDNSService) (o : HttpOutcome (List DNSRecord)) :
    Except DdnsError DDNSService :=
  match o with
  | .transportError => .error .transportError
  | .parseError => .error .parseError
  | .apiFailure errs => .error (.apiError errs)
  | .success records =>
    match records with
    | [] => .ok s
    | r :: _ => .ok { s with recordID := r.id, lastKnownIP := r.content }

/-- HTTP method of the upsert request. -/
inductive HttpMethod where
  | post
  | put
deriving Repr, DecidableEq

/-- The request `updateDNS` sends: method, URL target (`none` is the
records-collection URL used by POST, `some rid` the per-record URL used
by PUT), and the JSON body fields. -/
structure DnsRequest where
  method : HttpMethod
  target : Option String
  rtype : String
  name : String
  content : String
  ttl : Int
  proxied : Bool
deriving Repr, DecidableEq

/-- `updateDNS` (main.go:346-418).  Returns the request it sent together
with the service as the Go method leaves it: on `success=true` the record
ID from the response is stored when this was a create (`recordID` was
empty); on any failure the service is unchanged and the error is
reported. -/
def updateDNS (s : DDNSService) (ip : String) (o : HttpOutcome DNSRecord) :
    DnsRequest × Except DdnsError DDNSService :=
  let req : DnsRequest :=
    { method := if s.recordID = "" then .post else .put,
      target := if s.recordID = "" then none else some s.recordID,
      rtype := "AAAA",
      name := s.config.cloudflare.recordName,
      content := ip,
      ttl := s.config.cloudflare.ttl,
      proxied := s.config.cloudflare.proxied }
  match o with
  | .transportError => (req, .error .transportError)
  | .parseError => (req, .error .parseError)
  | .apiFailure errs => (req, .error (.apiError errs))
  | .success result =>
    (req, .ok (if s.recordID = "" then { s with recordID := result.id } else s))

/-! ## Debounce state machine (`checkAndUpdate`, `startStabilityTimer`,
`cancelPendingUpdate`, the timer callback)

The state machine consumes probe results as strings (`ip.String()` of
the selected address, which is never the empty string — `""` is the
"unset" sentinel of `lastKnownIP`/`pendingIP`). -/

/-- Outcome of one `getPublicIPv6` call as the state machine sees it. -/
inductive ProbeResult where
  | ok (ip : String)
  | fail
deriving Repr, DecidableEq

/-- A probe never yields the empty string: `getPublicIPv6` returns
`ip.String()` of a real address on success. -/
def ProbeResult.valid : ProbeResult → Prop
  | .ok ip => ip ≠ ""
  | .fail => True

instance : DecidablePred ProbeResult.valid := by
  intro p; cases p <;> simp [ProbeResult.valid] <;> infer_instance

/-- `startStabilityTimer` minus its callback body (main.go:252-260): stop
the previous timer if the field holds one that is still armed, then arm
a fresh one.  (`Stop` on an already-fired timer changes nothing, hence
the `timerArmed` guard on the decrement.) -/
def startStabilityTimer (s : DDNSService) : DDNSService :=
  let s := if s.timerArmed then
    { s with timerArmed := false, armedCount := s.armedCount - 1 } else s
  { s with timerArmed := true, armedCount := s.armedCount + 1 }

/-- `cancelPendingUpdate` (main.go:288-294): stop the timer if armed and
clear `pendingIP`. -/
def cancelPendingUpdate (s : DDNSService) : DDNSService :=
  let s := if s.timerArmed then
    { s with timerArmed := false, armedCount := s.armedCount - 1 } else s
  { s with pendingIP := "" }

/-- `checkAndUpdate` (main.go:223-250), with the probe outcome passed in.
It performs no DNS call itself: it only cancels or (re)starts the
stability timer. -/
def checkAndUpdate (s : DDNSService) (probe : ProbeResult) : DDNSService :=
  match probe with
  | .fail => s
  | .ok currentIP =>
    if currentIP = s.lastKnownIP then
      if s.pendingIP ≠ "" ∧ s.pendingIP ≠ currentIP then cancelPendingUpdate s else s
    else if currentIP ≠ s.pendingIP then
      startStabilityTimer { s with pendingIP := currentIP }
    else s

/-- The `time.AfterFunc` callback of `startStabilityTimer`
(main.go:260-285), with the re-probe outcome and the upsert's HTTP
outcome passed in.  Entering the callback means the armed timer has just
fired, so the state is first updated to reflect that.  Returns the new
state and the list of DNS requests issued (empty or a single upsert). -/
def timerExpire (s : DDNSService) (probe : ProbeResult) (o : HttpOutcome DNSRecord) :
    DDNSService × List DnsRequest :=
  let s := { s with timerArmed := false, armedCount := s.armedCount - 1 }
  match probe with
  | .fail => ({ s with pendingIP := "" }, [])
  | .ok currentIP =>
    if currentIP ≠ s.pendingIP then
      (startStabilityTimer { s with pendingIP := currentIP }, [])
    else
      match updateDNS s currentIP o with
      | (req, .ok s') => ({ s' with lastKnownIP := currentIP, pendingIP := "" }, [req])
      | (req, .error _) => ({ s with pendingIP := "" }, [req])

/-! ## Event system and reachability

The two event sources (poll ticks from the ticker, timer expiries) are
serialized per the code's single-timeline design; a timer expiry can only
occur while a timer is armed. -/

/-- One serialized event hitting the state machine. -/
inductive Event where
  | poll (probe : ProbeResult)
  | expire (probe : ProbeResult) (o : HttpOutcome DNSRecord)

/-- The probe outcome inside an event is a real probe result. -/
def Event.valid : Event → Prop
  | .poll p => p.valid
  | .expire p _ => p.valid

/-- One step of the service: a poll tick runs `checkAndUpdate` (which
issues no DNS request); a timer expiry runs the callback, and only has
an effect when a timer is actually armed (an unarmed timer cannot
fire). -/
def step (s : DDNSService) (e : Event) : DDNSService × List DnsRequest :=
  match e with
  | .poll p => (checkAndUpdate s p, [])
  | .expire p o => if s.timerArmed then timerExpire s p o else (s, [])

/-- States reachable from a post-startup service (blank state fields,
except `lastKnownIP` and `recordID` possibly seeded by `fetchRecordID`)
by valid poll-tick and timer-expiry events. -/
inductive Reachable : DDNSService → Prop where
  | init (config : Config) (lastKnownIP recordID : String) :
      Reachable { config := config, lastKnownIP := lastKnownIP, pendingIP := "",
                  timerArmed := false, armedCount := 0, recordID := recordID }
  | step (s : DDNSService) (e : Event) (hs : Reachable s) (he : e.valid) :
      Reachable (Ddns.step s e).1

/-! ## Startup (`main`, main.go:81-117)

`log.Fatalf` aborts the process; we model the startup sequence up to the
first poll as a function into `Except`, where `.error` is an abort. -/

/-- Why startup aborted: the config failed validation, or the initial
record lookup failed. -/
inductive StartupError where
  | configInvalid (msg : String)
  | fetchFailed (e : DdnsError)
deriving Repr, DecidableEq

/-- The startup sequence of `main` (main.go:85-104): apply config
defaults, validate, construct the service, and run the one-time
`fetchRecordID`; any failure is fatal (`log.Fatalf`). -/
def startup (parsed : Config) (fetch : HttpOutcome (List DNSRecord)) :
    Except StartupError DDNSService :=
  let config := loadConfig parsed
  match validateConfig config with
  | .error msg => .error (.configInvalid msg)
  | .ok _ =>
    match fetchRecordID (initService config) fetch with
    | .error e => .error (.fetchFailed e)
    | .ok s => .ok s

/-- Whether an HTTP exchange produced a `success=true` provider response. -/
def HttpOutcome.isSuccess : HttpOutcome α → Bool
  | .success _ => true
  | _ => false

/-- The debounce-state invariant of spec section 3: a pending address
exists exactly while a stability timer is armed for it, and that timer is
the only armed one in the process. -/
def Inv (s : DDNSService) : Prop :=
  (s.pendingIP ≠ "" ↔ s.timerArmed = true) ∧
  s.armedCount = (if s.timerArmed then 1 else 0)

/-! ## Concrete fixtures for witnesses and counterexamples -/

/-- A fully-supplied valid configuration. -/
def cfgEx : Config :=
  { interface := "eth0", pollInterval := 30, stabilityDelay := 5,
    cloudflare := { apiToken := "tok", zoneID := "zone1",
                    recordName := "host.example.com", ttl := 1, proxied := false } }

/-- A provider record as returned in a response body. -/
def recEx : DNSRecord :=
  { id := "abc123", rtype := "AAAA", name := "host.example.com",
    content := "2001:db8::1", ttl := 1, proxied := false }

/-- A service mid-stabilization: confirmed address `2001:db8::a`, pending
address `2001:db8::b`, timer armed. -/
def svcEx : DDNSService :=
  { config := cfgEx, lastKnownIP := "2001:db8::a", pendingIP := "2001:db8::b",
    timerArmed := true, armedCount := 1, recordID := "abc123" }

/-- A synthetic interface address list: a non-IPNet entry, an IPv4
address, a v4-mapped address, link-local `fe80::1`, loopback `::1`,
unique-local `fd00::1`, the global `2001:db8::1`, and a second global
address that enumeration order must not prefer. -/
def addrsEx : List IfaceAddr :=
  [none,
   some [192, 168, 1, 5],
   some (v4MappedPfx ++ [203, 0, 113, 7]),
   some [0xfe, 0x80, 0, 0, 0, 0, 0, 0, 0, 0, 0, 0, 0, 0, 0, 1],
   some (List.replicate 15 0 ++ [1]),
   some [0xfd, 0, 0, 0, 0, 0, 0, 0, 0, 0, 0, 0, 0, 0, 0, 1],
   some [0x20, 0x01, 0x0d, 0xb8, 0, 0, 0, 0, 0, 0, 0, 0, 0, 0, 0, 1],
   some [0x20, 0x01, 0x0d, 0xb8, 0, 0, 0, 0, 0, 0, 0, 0, 0, 0, 0, 2]]

end Ddns

namespace Ddns

/-! ## Theorems -/

/-- C1: from a state with `lastConfirmed = A` and `pending = B ≠ A` whose
stability timer expires, if the re-probe returns `B` again then exactly
one upsert request is issued and it carries `content = B`; on a
successful response `lastKnownIP` becomes `B`, and in every case
`pendingIP` is cleared and the timer is no longer armed (back to Idle). -/
theorem stable_reprobe_upserts_once
    (s : DDNSService) (A B : String) (o : HttpOutcome DNSRecord)
    (hA : s.lastKnownIP = A) (hB : s.pendingIP = B) (hne : B ≠ A)
    (ht : s.timerArmed = true) :
    ∃ req : DnsRequest,
      (step s (.expire (.ok B) o)).2 = [req] ∧
      req.content = B ∧
      (step s (.expire (.ok B) o)).1.pendingIP = "" ∧
      (step s (.expire (.ok B) o)).1.timerArmed = false ∧
      (∀ r, o = .success r → (step s (.expire (.ok B) o)).1.lastKnownIP = B) ∧
      (o.isSuccess = false → (step s (.expire (.ok B) o)).1.lastKnownIP = A) := by
  subst hA hB
  cases o <;>
    simp [step, ht, timerExpire, updateDNS, HttpOutcome.isSuccess]
  split <;> simp

/-- Witness for C1 at a concrete mid-stabilization service and a
successful provider response. -/
theorem stable_reprobe_upserts_once_witness :
    ∃ req : DnsRequest,
      (step svcEx (.expire (.ok "2001:db8::b") (.success recEx))).2 = [req] ∧
      req.content = "2001:db8::b" ∧
      (step svcEx (.expire (.ok "2001:db8::b") (.success recEx))).1.pendingIP = "" ∧
      (step svcEx (.expire (.ok "2001:db8::b") (.success recEx))).1.timerArmed = false ∧
      (∀ r, HttpOutcome.success recEx = .success r →
        (step svcEx (.expire (.ok "2001:db8::b") (.success recEx))).1.lastKnownIP
          = "2001:db8::b") ∧
      ((HttpOutcome.success recEx).isSuccess = false →
        (step svcEx (.expire (.ok "2001:db8::b") (.success recEx))).1.lastKnownIP
          = "2001:db8::a") :=
  stable_reprobe_upserts_once svcEx "2001:db8::a" "2001:db8::b" (.success recEx)
    rfl rfl (by decide) rfl

/-- C3: from a state with `lastConfirmed = A` and a pending `B ≠ A`
(timer armed), a poll that observes `A` again cancels the timer and
clears the pending address, and the step issues no DNS request. -/
theorem revert_poll_cancels_pending
    (s : DDNSService) (A B : String)
    (hA : s.lastKnownIP = A) (hB : s.pendingIP = B) (hne : B ≠ A)
    (hBne : B ≠ "") (ht : s.timerArmed = true) :
    (step s (.poll (.ok A))).1.pendingIP = "" ∧
    (step s (.poll (.ok A))).1.timerArmed = false ∧
    (step s (.poll (.ok A))).1.lastKnownIP = A ∧
    (step s (.poll (.ok A))).2 = [] := by
  subst hA hB
  simp [step, checkAndUpdate, cancelPendingUpdate, ht, hBne, hne]

/-- Witness for C3 at a concrete mid-stabilization service. -/
theorem revert_poll_cancels_pending_witness :
    (step svcEx (.poll (.ok "2001:db8::a"))).1.pendingIP = "" ∧
    (step svcEx (.poll (.ok "2001:db8::a"))).1.timerArmed = false ∧
    (step svcEx (.poll (.ok "2001:db8::a"))).1.lastKnownIP = "2001:db8::a" ∧
    (step svcEx (.poll (.ok "2001:db8::a"))).2 = [] :=
  revert_poll_cancels_pending svcEx "2001:db8::a" "2001:db8::b"
    rfl rfl (by decide) (by decide) rfl

/-- C10: the expiry handler compares the re-probe only against `pending`.
If at expiry the re-probe returns the already-confirmed address `A`
(different from the pending `B`), the handler adopts `A` as the new
pending address and re-arms the timer without issuing a request; if that
timer then expires with the same re-probe result, an upsert is issued
whose content is `A`, the address already confirmed. -/
theorem expiry_compares_only_pending
    (s : DDNSService) (A B : String) (o o' : HttpOutcome DNSRecord)
    (hA : s.lastKnownIP = A) (hB : s.pendingIP = B) (hne : B ≠ A)
    (ht : s.timerArmed = true) :
    (step s (.expire (.ok A) o)).1.pendingIP = A ∧
    (step s (.expire (.ok A) o)).1.lastKnownIP = A ∧
    (step s (.expire (.ok A) o)).1.timerArmed = true ∧
    (step s (.expire (.ok A) o)).2 = [] ∧
    ∃ req : DnsRequest,
      (step (step s (.expire (.ok A) o)).1 (.expire (.ok A) o')).2 = [req] ∧
      req.content = A := by
  subst hA hB
  have h1 : step s (.expire (.ok s.lastKnownIP) o)
      = (startStabilityTimer
          { s with timerArmed := false, armedCount := s.armedCount - 1,
                   pendingIP := s.lastKnownIP }, []) := by
    simp [step, ht, timerExpire, Ne.symm hne]
  rw [h1]
  refine ⟨by simp [startStabilityTimer], by simp [startStabilityTimer],
    by simp [startStabilityTimer], rfl, ?_⟩
  cases o' <;>
    simp [step, startStabilityTimer, timerExpire, updateDNS]

/-- Witness for C10 at a concrete mid-stabilization service with
transport-failing second upsert. -/
theorem expiry_compares_only_pending_witness :
    (step svcEx (.expire (.ok "2001:db8::a") (.success recEx))).1.pendingIP
      = "2001:db8::a" ∧
    (step svcEx (.expire (.ok "2001:db8::a") (.success recEx))).1.lastKnownIP
      = "2001:db8::a" ∧
    (step svcEx (.expire (.ok "2001:db8::a") (.success recEx))).1.timerArmed = true ∧
    (step svcEx (.expire (.ok "2001:db8::a") (.success recEx))).2 = [] ∧
    ∃ req : DnsRequest,
      (step (step svcEx (.expire (.ok "2001:db8::a") (.success recEx))).1
        (.expire (.ok "2001:db8::a") .transportError)).2 = [req] ∧
      req.content = "2001:db8::a" :=
  expiry_compares_only_pending svcEx "2001:db8::a" "2001:db8::b"
    (.success recEx) .transportError rfl rfl (by decide) rfl

/-- C4: when the timer-expiry upsert fails, `lastKnownIP` keeps its old
value `A` and `recordID` is untouched while `pendingIP` is cleared; a
later poll observing the same `B` again (with `lastKnownIP` still `A`)
re-enters stabilization (pending `B`, timer armed, no request), and the
next expiry re-probing `B` issues another upsert with `content = B`. -/
theorem failed_upsert_keeps_lastKnownIP
    (s : DDNSService) (A B : String) (o o' : HttpOutcome DNSRecord)
    (hA : s.lastKnownIP = A) (hB : s.pendingIP = B) (hne : B ≠ A)
    (hBne : B ≠ "") (ht : s.timerArmed = true) (hfail : o.isSuccess = false) :
    (step s (.expire (.ok B) o)).1.lastKnownIP = A ∧
    (step s (.expire (.ok B) o)).1.pendingIP = "" ∧
    (step s (.expire (.ok B) o)).1.recordID = s.recordID ∧
    (step s (.expire (.ok B) o)).1.timerArmed = false ∧
    (step (step s (.expire (.ok B) o)).1 (.poll (.ok B))).1.pendingIP = B ∧
    (step (step s (.expire (.ok B) o)).1 (.poll (.ok B))).1.timerArmed = true ∧
    (step (step s (.expire (.ok B) o)).1 (.poll (.ok B))).2 = [] ∧
    ∃ req : DnsRequest,
      (step (step (step s (.expire (.ok B) o)).1 (.poll (.ok B))).1
        (.expire (.ok B) o')).2 = [req] ∧
      req.content = B := by
  subst hA hB
  have h1 : step s (.expire (.ok s.pendingIP) o)
      = ({ s with timerArmed := false, armedCount := s.armedCount - 1,
                  pendingIP := "" },
         [(updateDNS { s with timerArmed := false,
                              armedCount := s.armedCount - 1 } s.pendingIP o).1]) := by
    cases o <;> simp_all [step, ht, timerExpire, updateDNS, HttpOutcome.isSuccess]
  rw [h1]
  have h2 : step { s with timerArmed := false, armedCount := s.armedCount - 1,
                          pendingIP := "" } (.poll (.ok s.pendingIP))
      = (startStabilityTimer
          { s with timerArmed := false, armedCount := s.armedCount - 1,
                   pendingIP := s.pendingIP }, []) := by
    simp [step, checkAndUpdate, hne, hBne]
  rw [h2]
  refine ⟨rfl, rfl, rfl, rfl, by simp [startStabilityTimer],
    by simp [startStabilityTimer], rfl, ?_⟩
  cases o' <;> simp [step, startStabilityTimer, timerExpire, updateDNS]

/-- Witness for C4 at a concrete mid-stabilization service with an
API-rejected upsert. -/
theorem failed_upsert_keeps_lastKnownIP_witness :
    (step svcEx (.expire (.ok "2001:db8::b") (.apiFailure []))).1.lastKnownIP
      = "2001:db8::a" ∧
    (step svcEx (.expire (.ok "2001:db8::b") (.apiFailure []))).1.pendingIP = "" ∧
    (step svcEx (.expire (.ok "2001:db8::b") (.apiFailure []))).1.recordID
      = svcEx.recordID ∧
    (step svcEx (.expire (.ok "2001:db8::b") (.apiFailure []))).1.timerArmed = false ∧
    (step (step svcEx (.expire (.ok "2001:db8::b") (.apiFailure []))).1
      (.poll (.ok "2001:db8::b"))).1.pendingIP = "2001:db8::b" ∧
    (step (step svcEx (.expire (.ok "2001:db8::b") (.apiFailure []))).1
      (.poll (.ok "2001:db8::b"))).1.timerArmed = true ∧
    (step (step svcEx (.expire (.ok "2001:db8::b") (.apiFailure []))).1
      (.poll (.ok "2001:db8::b"))).2 = [] ∧
    ∃ req : DnsRequest,
      (step (step (step svcEx (.expire (.ok "2001:db8::b") (.apiFailure []))).1
        (.poll (.ok "2001:db8::b"))).1 (.expire (.ok "2001:db8::b") (.success recEx))).2
        = [req] ∧
      req.content = "2001:db8::b" :=
  failed_upsert_keeps_lastKnownIP svcEx "2001:db8::a" "2001:db8::b"
    (.apiFailure []) (.success recEx) rfl rfl (by decide) (by decide) rfl rfl

/-- C5: the startup lookup with zero matches is not an error and leaves
`recordID` unset (so the first update would be a create, a POST); with at
least one match it seeds `recordID` and `lastKnownIP` from the first
match, and an immediate first poll returning that same address leaves the
state unchanged and issues no DNS request. -/
theorem startup_seeding
    (config : Config) (r : DNSRecord) (rest : List DNSRecord) :
    fetchRecordID (initService config) (.success []) = .ok (initService config) ∧
    (initService config).recordID = "" ∧
    (∀ (ip : String) (o : HttpOutcome DNSRecord),
      (updateDNS (initService config) ip o).1.method = .post) ∧
    ∃ s : DDNSService,
      fetchRecordID (initService config) (.success (r :: rest)) = .ok s ∧
      s.recordID = r.id ∧
      s.lastKnownIP = r.content ∧
      step s (.poll (.ok r.content)) = (s, []) := by
  refine ⟨rfl, rfl, fun ip o => by cases o <;> rfl, ?_⟩
  refine ⟨_, rfl, rfl, rfl, ?_⟩
  simp [step, checkAndUpdate, fetchRecordID, initService]

/-- C6 counterexample: with a fully valid configuration, a transport
failure (and likewise a provider `success=false` response) in the
startup `fetchRecordID` call terminates the process (`log.Fatalf` at
main.go:103), so ConfigInvalid is not the sole fatal error kind and a
provider-API or transport failure can terminate the process. -/
theorem startup_fetch_failure_is_fatal :
    validateConfig (loadConfig cfgEx) = .ok () ∧
    startup cfgEx .transportError = .error (.fetchFailed .transportError) ∧
    startup cfgEx (.apiFailure [{ code := 9103, message := "auth error" }])
      = .error (.fetchFailed (.apiError [{ code := 9103, message := "auth error" }])) := by
  refine ⟨?_, ?_, ?_⟩ <;> rfl

/-- C6 as amended: after startup, API and transport failures are
recoverable (the steady-state step machinery is total — every failure
only affects the debounce state and is reported by log; in particular a
failed upsert leaves `lastKnownIP` authoritative and the machine Idle).
At startup, however, two error classes are fatal: an invalid
configuration, and any failure (API or transport) of the one-time
`fetchRecordID` lookup; startup aborts with `fetchFailed` exactly when
the configuration validates but the lookup's HTTP exchange did not
produce a `success=true` response. -/
theorem fatal_errors_characterization
    (parsed : Config) (fetch : HttpOutcome (List DNSRecord)) :
    ((∃ msg, startup parsed fetch = .error (.configInvalid msg)) ↔
      ¬ validateConfig (loadConfig parsed) = .ok ()) ∧
    ((∃ e, startup parsed fetch = .error (.fetchFailed e)) ↔
      (validateConfig (loadConfig parsed) = .ok () ∧ fetch.isSuccess = false)) ∧
    (∀ (s : DDNSService) (p : ProbeResult) (o : HttpOutcome DNSRecord),
      o.isSuccess = false → s.timerArmed = true → p = .ok s.pendingIP →
        (step s (.expire p o)).1.lastKnownIP = s.lastKnownIP ∧
        (step s (.expire p o)).1.pendingIP = "") := by
  refine ⟨?_, ?_, ?_⟩
  · unfold startup
    rcases h : validateConfig (loadConfig parsed) with msg | u
    · simp [h]
    · cases u
      simp only [h]
      cases fetch <;> simp [fetchRecordID]
      case success records => cases records <;> simp
  · unfold startup
    rcases h : validateConfig (loadConfig parsed) with msg | u
    · simp [h]
    · cases u
      simp only [h, true_and]
      cases fetch <;> simp [fetchRecordID, HttpOutcome.isSuccess]
      case success records => cases records <;> simp
  · intro s p o hfail ht hp
    subst hp
    cases o <;>
      simp_all [step, timerExpire, updateDNS, HttpOutcome.isSuccess]

/-- Witness for C6's amended theorem at a concrete valid config and
failing fetch. -/
theorem fatal_errors_characterization_witness :
    ((∃ msg, startup cfgEx .transportError = .error (.configInvalid msg)) ↔
      ¬ validateConfig (loadConfig cfgEx) = .ok ()) ∧
    ((∃ e, startup cfgEx .transportError = .error (.fetchFailed e)) ↔
      (validateConfig (loadConfig cfgEx) = .ok () ∧
        (HttpOutcome.transportError (α := List DNSRecord)).isSuccess = false)) ∧
    (∀ (s : DDNSService) (p : ProbeResult) (o : HttpOutcome DNSRecord),
      o.isSuccess = false → s.timerArmed = true → p = .ok s.pendingIP →
        (step s (.expire p o)).1.lastKnownIP = s.lastKnownIP ∧
        (step s (.expire p o)).1.pendingIP = "") :=
  fatal_errors_characterization cfgEx .transportError

/-- C7 counterexample: the configuration below explicitly supplies
`stabilityDelay = 0`, a value the claim says is valid and used as the
stability window, but `loadConfig` replaces it with the default 5
(main.go:149-151 tests `== 0`, which cannot distinguish an explicit 0
from an absent field). -/
theorem zero_stability_delay_not_preserved :
    ({ interface := "eth0", pollInterval := 10, stabilityDelay := 0,
       cloudflare := { apiToken := "tok", zoneID := "zone1",
                       recordName := "host.example.com", ttl := 300,
                       proxied := false } } : Config).stabilityDelay = 0 ∧
    (loadConfig
      { interface := "eth0", pollInterval := 10, stabilityDelay := 0,
        cloudflare := { apiToken := "tok", zoneID := "zone1",
                        recordName := "host.example.com", ttl := 300,
                        proxied := false } }).stabilityDelay = 5 := by
  exact ⟨rfl, rfl⟩

/-- C7 as amended: the defaults (poll interval 30, stability delay 5, TTL
sentinel 1) apply exactly when the corresponding field holds the Go zero
value 0 — which is what an unsupplied field unmarshals to, so an
explicitly configured 0 is indistinguishable from an absent field.  Every
configuration whose numeric fields are nonzero (in particular the
accepted ranges pollInterval ≥ 1, stabilityDelay ≥ 1, ttl ≥ 1) is used
exactly as supplied; a configured stabilityDelay of 0 is NOT usable as
the stability window — it becomes 5. -/
theorem loadConfig_defaults
    (c : Config) (h1 : c.pollInterval ≠ 0) (h2 : c.stabilityDelay ≠ 0)
    (h3 : c.cloudflare.ttl ≠ 0) :
    loadConfig c = c ∧
    ∀ d : Config,
      ((loadConfig d).pollInterval = if d.pollInterval = 0 then 30 else d.pollInterval) ∧
      ((loadConfig d).stabilityDelay
        = if d.stabilityDelay = 0 then 5 else d.stabilityDelay) ∧
      ((loadConfig d).cloudflare.ttl
        = if d.cloudflare.ttl = 0 then 1 else d.cloudflare.ttl) ∧
      (loadConfig d).interface = d.interface ∧
      (loadConfig d).cloudflare.apiToken = d.cloudflare.apiToken ∧
      (loadConfig d).cloudflare.zoneID = d.cloudflare.zoneID ∧
      (loadConfig d).cloudflare.recordName = d.cloudflare.recordName ∧
      (loadConfig d).cloudflare.proxied = d.cloudflare.proxied := by
  constructor
  · simp [loadConfig, h1, h2, h3]
  · intro d
    unfold loadConfig
    by_cases hp : d.pollInterval = 0 <;>
      by_cases hs : d.stabilityDelay = 0 <;>
      by_cases htl : d.cloudflare.ttl = 0 <;>
      simp [hp, hs, htl]

/-- Witness for C7's amended theorem at the fully-supplied config. -/
theorem loadConfig_defaults_witness :
    loadConfig cfgEx = cfgEx ∧
    ∀ d : Config,
      ((loadConfig d).pollInterval = if d.pollInterval = 0 then 30 else d.pollInterval) ∧
      ((loadConfig d).stabilityDelay
        = if d.stabilityDelay = 0 then 5 else d.stabilityDelay) ∧
      ((loadConfig d).cloudflare.ttl
        = if d.cloudflare.ttl = 0 then 1 else d.cloudflare.ttl) ∧
      (loadConfig d).interface = d.interface ∧
      (loadConfig d).cloudflare.apiToken = d.cloudflare.apiToken ∧
      (loadConfig d).cloudflare.zoneID = d.cloudflare.zoneID ∧
      (loadConfig d).cloudflare.recordName = d.cloudflare.recordName ∧
      (loadConfig d).cloudflare.proxied = d.cloudflare.proxied :=
  loadConfig_defaults cfgEx (by decide) (by decide) (by decide)

/-- C8: `updateDNS` issues a POST to the records collection exactly when
no record ID is cached and a PUT addressed by the cached ID otherwise;
both variants carry the same body fields (type "AAAA", the configured
record name, `content = ip`, the configured ttl and proxied flag).  After
a successful create whose response carries id `r.id ≠ ""`, that id is
cached, and from any state with a cached id every upsert is a PUT
addressed by it and leaves it unchanged whatever the outcome. -/
theorem upsert_create_then_put
    (s : DDNSService) (ip ip' : String) (o o' : HttpOutcome DNSRecord)
    (r : DNSRecord) (hcreate : s.recordID = "") (hid : r.id ≠ "") :
    (updateDNS s ip o).1.method = .post ∧
    (updateDNS s ip o).1.target = none ∧
    (∀ t : DDNSService,
      (updateDNS t ip o).1.rtype = "AAAA" ∧
      (updateDNS t ip o).1.name = t.config.cloudflare.recordName ∧
      (updateDNS t ip o).1.content = ip ∧
      (updateDNS t ip o).1.ttl = t.config.cloudflare.ttl ∧
      (updateDNS t ip o).1.proxied = t.config.cloudflare.proxied) ∧
    (∀ t : DDNSService, t.recordID ≠ "" →
      (updateDNS t ip o).1.method = .put ∧
      (updateDNS t ip o).1.target = some t.recordID ∧
      (∀ t', (updateDNS t ip o).2 = .ok t' → t'.recordID = t.recordID)) ∧
    ∃ s' : DDNSService,
      (updateDNS s ip (.success r)).2 = .ok s' ∧
      s'.recordID = r.id ∧
      (updateDNS s' ip' o').1.method = .put ∧
      (updateDNS s' ip' o').1.target = some r.id := by
  refine ⟨by cases o <;> simp [updateDNS, hcreate],
    by cases o <;> simp [updateDNS, hcreate],
    fun t => by cases o <;> simp [updateDNS], ?_, ?_⟩
  · intro t htne
    refine ⟨by cases o <;> simp [updateDNS, htne],
      by cases o <;> simp [updateDNS, htne], ?_⟩
    intro t' h
    cases o <;> simp_all [updateDNS, htne]
  · refine ⟨{ s with recordID := r.id }, by simp [updateDNS, hcreate], rfl, ?_, ?_⟩ <;>
      cases o' <;> simp [updateDNS, hid]

/-- Witness for C8 from the blank post-startup service and the concrete
success response `recEx` (id "abc123"). -/
theorem upsert_create_then_put_witness :
    (updateDNS (initService cfgEx) "2001:db8::1" .transportError).1.method = .post ∧
    (updateDNS (initService cfgEx) "2001:db8::1" .transportError).1.target = none ∧
    (∀ t : DDNSService,
      (updateDNS t "2001:db8::1" .transportError).1.rtype = "AAAA" ∧
      (updateDNS t "2001:db8::1" .transportError).1.name
        = t.config.cloudflare.recordName ∧
      (updateDNS t "2001:db8::1" .transportError).1.content = "2001:db8::1" ∧
      (updateDNS t "2001:db8::1" .transportError).1.ttl = t.config.cloudflare.ttl ∧
      (updateDNS t "2001:db8::1" .transportError).1.proxied
        = t.config.cloudflare.proxied) ∧
    (∀ t : DDNSService, t.recordID ≠ "" →
      (updateDNS t "2001:db8::1" .transportError).1.method = .put ∧
      (updateDNS t "2001:db8::1" .transportError).1.target = some t.recordID ∧
      (∀ t', (updateDNS t "2001:db8::1" .transportError).2 = .ok t' →
        t'.recordID = t.recordID)) ∧
    ∃ s' : DDNSService,
      (updateDNS (initService cfgEx) "2001:db8::1" (.success recEx)).2 = .ok s' ∧
      s'.recordID = recEx.id ∧
      (updateDNS s' "2001:db8::2" (.apiFailure [])).1.method = .put ∧
      (updateDNS s' "2001:db8::2" (.apiFailure [])).1.target = some recEx.id :=
  upsert_create_then_put (initService cfgEx) "2001:db8::1" "2001:db8::2"
    .transportError (.apiFailure []) recEx rfl (by decide)

/-- The selection loop returns exactly the first IPNet entry whose
address satisfies the spec's conjunction of filters. -/
theorem selectIPv6_eq_find (addrs : List IfaceAddr) :
    selectIPv6 addrs = (addrs.filterMap id).find? qualifiesSpec := by
  induction addrs with
  | nil => rfl
  | cons a rest ih =>
    cases a with
    | none => simpa [selectIPv6] using ih
    | some ip =>
      simp only [List.filterMap_cons_some, List.find?_cons, selectIPv6, id]
      by_cases h1 : (to4 ip).isSome <;>
        by_cases h2 : isLinkLocalUnicast ip <;>
        by_cases h3 : isLoopback ip <;>
        by_cases h4 : byte0 ip = 0xfc ∨ byte0 ip = 0xfd <;>
        by_cases h5 : isGlobalUnicast ip <;>
        simp [qualifiesSpec, h1, h2, h3, h4, h5, ih]

/-- C2: for every address list bound to the interface (each entry a
4- or 16-byte address), the prober returns the first entry that is
simultaneously IPv6, non-link-local, non-loopback, non-unique-local
(first octet `0xfc`/`0xfd`) and global-unicast; `noQualifyingAddress`
when none qualifies; `interfaceNotFound` when the interface lookup
failed. -/
theorem prober_returns_first_qualifying
    (addrs : List IfaceAddr)
    (hlen : ∀ a ∈ addrs, ∀ ip, a = some ip → ip.length = 4 ∨ ip.length = 16) :
    (getPublicIPv6 (.ok addrs)
      = match (addrs.filterMap id).find? qualifiesSpec with
        | some ip => .ok ip
        | none => .error .noQualifyingAddress) ∧
    getPublicIPv6 (.error .interfaceNotFound) = .error .interfaceNotFound := by
  refine ⟨?_, rfl⟩
  simp only [getPublicIPv6, selectIPv6_eq_find]

/-- Witness for C2 at the synthetic address list: the first global
unicast address `2001:db8::1` is selected past the non-IPNet, IPv4,
v4-mapped, link-local, loopback and unique-local entries. -/
theorem prober_returns_first_qualifying_witness :
    ((getPublicIPv6 (.ok addrsEx)
      = match (addrsEx.filterMap id).find? qualifiesSpec with
        | some ip => .ok ip
        | none => .error .noQualifyingAddress) ∧
     getPublicIPv6 (.error .interfaceNotFound) = .error .interfaceNotFound) ∧
    getPublicIPv6 (.ok addrsEx)
      = .ok [0x20, 0x01, 0x0d, 0xb8, 0, 0, 0, 0, 0, 0, 0, 0, 0, 0, 0, 1] :=
  ⟨prober_returns_first_qualifying addrsEx (by decide), by rfl⟩

/-- The debounce-state invariant is preserved by a poll tick. -/
theorem inv_checkAndUpdate (s : DDNSService) (p : ProbeResult)
    (hp : p.valid) (h : Inv s) : Inv (checkAndUpdate s p) := by
  obtain ⟨h1, h2⟩ := h
  cases p with
  | fail => exact ⟨h1, h2⟩
  | ok ip =>
    have hip : ip ≠ "" := hp
    cases harm : s.timerArmed with
    | false =>
      have hpend : s.pendingIP = "" := by
        by_contra hc
        rw [h1.mp hc] at harm
        cases harm
      have hcnt : s.armedCount = 0 := by rw [h2, harm]; rfl
      by_cases e1 : ip = s.lastKnownIP
      · simp [checkAndUpdate, e1, hpend, Inv, harm, hcnt]
      · simp [checkAndUpdate, e1, hpend, startStabilityTimer, Inv, harm, hcnt,
          hip, Ne.symm hip]
    | true =>
      have hpend : s.pendingIP ≠ "" := h1.mpr harm
      have hcnt : s.armedCount = 1 := by rw [h2, harm]; rfl
      by_cases e1 : ip = s.lastKnownIP
      · by_cases e2 : s.pendingIP = ip
        · simp only [checkAndUpdate, if_pos e1]
          rw [if_neg (show ¬(s.pendingIP ≠ "" ∧ s.pendingIP ≠ ip) by simp [e2])]
          exact ⟨h1, h2⟩
        · have e2' : s.pendingIP ≠ s.lastKnownIP := fun hc => e2 (by rw [hc, ← e1])
          simp [checkAndUpdate, e1, hpend, e2', cancelPendingUpdate, Inv, harm, hcnt]
      · by_cases e2 : ip = s.pendingIP
        · simp only [checkAndUpdate, if_neg e1]
          rw [if_neg (show ¬ip ≠ s.pendingIP by simp [e2])]
          exact ⟨h1, h2⟩
        · simp [checkAndUpdate, e1, e2, startStabilityTimer, Inv, harm, hcnt, hip]

/-- The debounce-state invariant is preserved by a timer expiry. -/
theorem inv_timerExpire (s : DDNSService) (p : ProbeResult)
    (o : HttpOutcome DNSRecord) (hp : p.valid) (harm : s.timerArmed = true)
    (h : Inv s) : Inv (timerExpire s p o).1 := by
  obtain ⟨h1, h2⟩ := h
  have hcnt : s.armedCount = 1 := by rw [h2, harm]; rfl
  cases p with
  | fail => simp [timerExpire, Inv, hcnt]
  | ok ip =>
    have hip : ip ≠ "" := hp
    by_cases e1 : ip = s.pendingIP
    · cases o <;>
        simp [timerExpire, e1, updateDNS, Inv, hcnt]
      split <;> simp
    · simp [timerExpire, e1, startStabilityTimer, Inv, hcnt, hip]

/-- Every reachable state satisfies the debounce-state invariant. -/
theorem reachable_inv (s : DDNSService) (h : Reachable s) : Inv s := by
  induction h with
  | init config lk rid => exact ⟨by simp, by simp⟩
  | step s e hs he ih =>
    cases e with
    | poll p => exact inv_checkAndUpdate s p he ih
    | expire p o =>
      by_cases harm : s.timerArmed = true
      · simpa [step, harm] using inv_timerExpire s p o he harm ih
      · simpa [step, harm] using ih

/-- C9: in every state reachable from a post-startup state by poll-tick
and timer-expiry events, a pending address exists exactly while a
stability timer is armed, and at most one timer is armed in the whole
process (the armed-timer count is 1 when the timer field is armed and 0
otherwise, because starting a new timer first stops the previous one). -/
theorem pending_iff_timer_armed (s : DDNSService) (h : Reachable s) :
    (s.pendingIP ≠ "" ↔ s.timerArmed = true) ∧
    s.armedCount ≤ 1 ∧
    s.armedCount = (if s.timerArmed then 1 else 0) := by
  obtain ⟨h1, h2⟩ := reachable_inv s h
  exact ⟨h1, by rw [h2]; split <;> simp, h2⟩

/-- Witness for C9 at the initial post-startup state. -/
theorem pending_iff_timer_armed_witness :
    (({ config := cfgEx, lastKnownIP := "2001:db8::1", pendingIP := "",
        timerArmed := false, armedCount := 0,
        recordID := "abc123" } : DDNSService).pendingIP ≠ "" ↔
      ({ config := cfgEx, lastKnownIP := "2001:db8::1", pendingIP := "",
         timerArmed := false, armedCount := 0,
         recordID := "abc123" } : DDNSService).timerArmed = true) ∧
    ({ config := cfgEx, lastKnownIP := "2001:db8::1", pendingIP := "",
       timerArmed := false, armedCount := 0,
       recordID := "abc123" } : DDNSService).armedCount ≤ 1 ∧
    ({ config := cfgEx, lastKnownIP := "2001:db8::1", pendingIP := "",
       timerArmed := false, armedCount := 0,
       recordID := "abc123" } : DDNSService).armedCount
      = (if ({ config := cfgEx, lastKnownIP := "2001:db8::1", pendingIP := "",
               timerArmed := false, armedCount := 0,
               recordID := "abc123" } : DDNSService).timerArmed then 1 else 0) :=
  pending_iff_timer_armed _ (Reachable.init cfgEx "2001:db8::1" "abc123")

end Ddns
